import Mathlib

/-
Verification of the tax-rule formulas of OpenFisca-Yuisekin
(src/openfisca_yuisekin/variables/taxes.py).

The three rules (所得税, 社会保険料, 固定資産税) are embedded as pure
functions over exact rationals.  Entity attributes and parameters are
period-indexed inputs: an attribute is a function from a period to a
value, mirroring the engine calls `対象人物("所得", 対象期間)` and
`parameters(対象期間)....` in the source.
-/

namespace OpenFiscaYuisekin

/-- A calendar month period (year plus month number), the `MONTH`
definition period of the engine. -/
structure MonthPeriod where
  year : ℕ
  month : ℕ
deriving DecidableEq, Repr

/-- A calendar year period, the `YEAR` definition period of the engine. -/
structure YearPeriod where
  year : ℕ
deriving DecidableEq, Repr

/-- Modelled from the spec: the engine's period shortcut
`対象期間.first_month` resolves the first calendar month of the target
year (spec 4.3 step 1: "Resolve the first calendar month of the target
year"); the period algebra itself lives in openfisca-core, outside this
repository. -/
def YearPeriod.first_month (p : YearPeriod) : MonthPeriod :=
  ⟨p.year, 1⟩

/-- Modelled from the spec: the housing occupancy enum referenced by
`居住状況.possible_values` in taxes.py is declared in repository code
outside src/; per the spec its closed categorical domain includes at
least owner-occupied (`owner`), rented (`借家`), and other categories. -/
inductive HousingOccupancyStatus where
  | owner
  | «借家»
  | free_lodger
  | homeless
deriving DecidableEq, Repr

/-- One (threshold, rate) bracket of a marginal scale (spec glossary). -/
structure Bracket where
  threshold : ℚ
  rate : ℚ
deriving DecidableEq, Repr

/-- Modelled from the spec: the engine primitive `scale.calc` used at
taxes.py line 46 lives in openfisca-core, outside this repository.  Per
spec 4.2, the contribution is the sum, over each bracket, of the portion
of income falling within that bracket's range multiplied by that
bracket's rate; the top bracket applies to all income above its
threshold. -/
def scaleCalc : List Bracket → ℚ → ℚ
  | [], _ => 0
  | [b], income => b.rate * max (income - b.threshold) 0
  | b :: b2 :: rest, income =>
      b.rate * max (min income b2.threshold - b.threshold) 0 +
        scaleCalc (b2 :: rest) income

/-- A valid ascending marginal scale: strictly increasing thresholds and
non-negative rates (spec 4.2: "a correctly-ordered marginal scale"). -/
def ValidAscendingScale (bs : List Bracket) : Prop :=
  bs.Chain' (fun a b => a.threshold < b.threshold) ∧ ∀ b ∈ bs, 0 ≤ b.rate

/-- The 所得税 formula (taxes.py lines 26-27): the individual's 所得 for
the target month multiplied by the 所得税率 parameter for that month. -/
def «所得税_formula» («所得» : MonthPeriod → ℚ) («所得税率» : MonthPeriod → ℚ)
    («対象期間» : MonthPeriod) : ℚ :=
  «所得» «対象期間» * «所得税率» «対象期間»

/-- The 社会保険料 formula (taxes.py lines 37-46): the month's 所得 run
through the marginal scale parameter for that month. -/
def «社会保険料_formula» («所得» : MonthPeriod → ℚ)
    («社会保険料scale» : MonthPeriod → List Bracket)
    («対象期間» : MonthPeriod) : ℚ :=
  scaleCalc («社会保険料scale» «対象期間») («所得» «対象期間»)

/-- The property-tax parameter node `parameters(対象期間).税金.固定資産税`
with its `rate` and `minimal_金額` leaves (taxes.py lines 67-68). -/
structure «固定資産税Params» where
  rate : ℚ
  «minimal_金額» : ℚ
deriving DecidableEq, Repr

/-- The combination of the two boolean occupancy checks `owner + 借家`
of taxes.py line 78.  The operands are numpy boolean arrays (enum
comparisons), and numpy's `+` on boolean arrays is logical OR
(True + True = True), so the factor is 1 if either check holds and 0
otherwise; it never reaches 2. -/
def applicability (ownerCheck «借家Check» : Bool) : ℚ :=
  if ownerCheck || «借家Check» then 1 else 0

/-- The 固定資産税 formula (taxes.py lines 56-78): 課税床面積 and
居住状況 are read at the first month of the target year, the parameters
at the year itself; the tax is `max(課税床面積 * rate, minimal_金額)`
multiplied by the sum of the owner and 借家 checks. -/
def «固定資産税_formula» («課税床面積» : MonthPeriod → ℚ)
    («居住状況» : MonthPeriod → HousingOccupancyStatus)
    (taxParams : YearPeriod → «固定資産税Params»)
    («対象期間» : YearPeriod) : ℚ :=
  let january := «対象期間».first_month
  let area := «課税床面積» january
  let tp := taxParams «対象期間»
  let «tax_金額» := max (area * tp.rate) tp.«minimal_金額»
  let occ := «居住状況» january
  applicability (occ = HousingOccupancyStatus.owner)
    (occ = HousingOccupancyStatus.«借家») * «tax_金額»

/-- Helper: `scaleCalc` is monotone in income whenever every bracket
rate is non-negative. -/
theorem scaleCalc_mono : ∀ (bs : List Bracket), (∀ b ∈ bs, 0 ≤ b.rate) →
    ∀ i1 i2 : ℚ, i1 ≤ i2 → scaleCalc bs i1 ≤ scaleCalc bs i2
  | [], _, _, _, _ => le_refl 0
  | [b], h, i1, i2, hle => by
      have hb : 0 ≤ b.rate := h b (List.mem_singleton_self b)
      simp only [scaleCalc]
      exact mul_le_mul_of_nonneg_left
        (max_le_max (sub_le_sub_right hle _) le_rfl) hb
  | b :: b2 :: rest, h, i1, i2, hle => by
      have hb : 0 ≤ b.rate := h b (List.mem_cons_self b _)
      have ih := scaleCalc_mono (b2 :: rest)
        (fun x hx => h x (List.mem_cons_of_mem b hx)) i1 i2 hle
      simp only [scaleCalc]
      exact add_le_add
        (mul_le_mul_of_nonneg_left
          (max_le_max (sub_le_sub_right (min_le_min hle le_rfl) _) le_rfl) hb)
        ih

/-- C1: for every household, year, floor area, occupancy status, rate and
minimal amount, the 固定資産税 equals applicability * max(floor_area *
rate, minimal_amount), where applicability is the sum of the occupancy
checks (== owner) + (== 借家); it is 1 when exactly one matches and 0
when neither matches. -/
theorem property_tax_formula_spec (f : MonthPeriod → ℚ)
    (g : MonthPeriod → HousingOccupancyStatus)
    (p : YearPeriod → «固定資産税Params») (y : YearPeriod) :
    «固定資産税_formula» f g p y =
      ((if g y.first_month = HousingOccupancyStatus.owner then (1 : ℚ) else 0) +
        (if g y.first_month = HousingOccupancyStatus.«借家» then 1 else 0)) *
        max (f y.first_month * (p y).rate) (p y).«minimal_金額» ∧
    ((g y.first_month = HousingOccupancyStatus.owner ∧
        g y.first_month ≠ HousingOccupancyStatus.«借家») ∨
      (g y.first_month ≠ HousingOccupancyStatus.owner ∧
        g y.first_month = HousingOccupancyStatus.«借家») →
      (if g y.first_month = HousingOccupancyStatus.owner then (1 : ℚ) else 0) +
        (if g y.first_month = HousingOccupancyStatus.«借家» then 1 else 0) = 1) ∧
    (g y.first_month ≠ HousingOccupancyStatus.owner ∧
        g y.first_month ≠ HousingOccupancyStatus.«借家» →
      (if g y.first_month = HousingOccupancyStatus.owner then (1 : ℚ) else 0) +
        (if g y.first_month = HousingOccupancyStatus.«借家» then 1 else 0) = 0) := by
  rcases hg : g y.first_month <;>
    simp [«固定資産税_formula», applicability, hg]

/-- Witness for C1 at a concrete household: occupancy owner matches
exactly one check, so the applicability sum is 1. -/
theorem property_tax_formula_spec_witness :
    (if (HousingOccupancyStatus.owner = HousingOccupancyStatus.owner) then (1 : ℚ) else 0) +
      (if (HousingOccupancyStatus.owner = HousingOccupancyStatus.«借家») then (1 : ℚ) else 0) = 1 :=
  (property_tax_formula_spec (fun _ => 10000) (fun _ => HousingOccupancyStatus.owner)
    (fun _ => ⟨1/100, 300⟩) ⟨2021⟩).2.1 (Or.inl ⟨rfl, by decide⟩)

/-- C2: for every individual, month, income and income-tax rate, the
所得税 returned is exactly income * rate, with no clamping or bounds. -/
theorem income_tax_formula_spec («所得» «所得税率» : MonthPeriod → ℚ)
    (m : MonthPeriod) :
    «所得税_formula» «所得» «所得税率» m = «所得» m * «所得税率» m := rfl

/-- C3: the 社会保険料 is the standard marginal-bracket evaluation: for
the scale [(0, 0.1), (1000, 0.2)], income 500 yields 50 and income 1500
yields 1000*0.1 + 500*0.2 = 200. -/
theorem social_contribution_bracket_examples :
    «社会保険料_formula» (fun _ => 500)
      (fun _ => [⟨0, 1/10⟩, ⟨1000, 1/5⟩]) ⟨2020, 1⟩ = 50 ∧
    «社会保険料_formula» (fun _ => 1500)
      (fun _ => [⟨0, 1/10⟩, ⟨1000, 1/5⟩]) ⟨2020, 1⟩ = 200 := by
  constructor <;> norm_num [«社会保険料_formula», scaleCalc]

/-- C4: for every valid ascending marginal scale and incomes i1 < i2,
the 社会保険料 is monotonically non-decreasing:
contribution(i1) ≤ contribution(i2). -/
theorem social_contribution_monotone («所得1» «所得2» : MonthPeriod → ℚ)
    (sc : MonthPeriod → List Bracket) (m : MonthPeriod)
    (hv : ValidAscendingScale (sc m)) (h : «所得1» m < «所得2» m) :
    «社会保険料_formula» «所得1» sc m ≤ «社会保険料_formula» «所得2» sc m :=
  scaleCalc_mono (sc m) hv.2 _ _ h.le

/-- Witness for C4 on the concrete scale [(0, 0.1), (1000, 0.2)] with
incomes 500 < 1500. -/
theorem social_contribution_monotone_witness :
    «社会保険料_formula» (fun _ => 500)
      (fun _ => [⟨0, 1/10⟩, ⟨1000, 1/5⟩]) ⟨2020, 1⟩ ≤
    «社会保険料_formula» (fun _ => 1500)
      (fun _ => [⟨0, 1/10⟩, ⟨1000, 1/5⟩]) ⟨2020, 1⟩ :=
  social_contribution_monotone _ _ _ ⟨2020, 1⟩
    ⟨by norm_num [List.chain'_cons, List.chain'_singleton],
      by norm_num [List.forall_mem_cons]⟩
    (by norm_num)

/-- C5: for every household whose occupancy status is outside the two
recognized categories (owner and 借家), the 固定資産税 returned is 0,
regardless of floor area, rate and minimal amount. -/
theorem property_tax_nonqualifying (f : MonthPeriod → ℚ)
    (g : MonthPeriod → HousingOccupancyStatus)
    (p : YearPeriod → «固定資産税Params») (y : YearPeriod)
    (h1 : g y.first_month ≠ HousingOccupancyStatus.owner)
    (h2 : g y.first_month ≠ HousingOccupancyStatus.«借家») :
    «固定資産税_formula» f g p y = 0 := by
  simp [«固定資産税_formula», applicability, h1, h2]

/-- Witness for C5: a free-lodger household pays zero property tax even
with a large floor area. -/
theorem property_tax_nonqualifying_witness :
    «固定資産税_formula» (fun _ => 10000)
      (fun _ => HousingOccupancyStatus.free_lodger)
      (fun _ => ⟨1/100, 200⟩) ⟨2020⟩ = 0 :=
  property_tax_nonqualifying _ _ _ ⟨2020⟩ (by decide) (by decide)

/-- C6: the 固定資産税 reads floor area and occupancy at the first
calendar month of the target year and the parameters at the year period
itself; attribute values at any other month do not influence the
result. -/
theorem property_tax_first_month_only (f1 f2 : MonthPeriod → ℚ)
    (g1 g2 : MonthPeriod → HousingOccupancyStatus)
    (p1 p2 : YearPeriod → «固定資産税Params») (y : YearPeriod)
    (hf : f1 y.first_month = f2 y.first_month)
    (hg : g1 y.first_month = g2 y.first_month)
    (hp : p1 y = p2 y) :
    «固定資産税_formula» f1 g1 p1 y = «固定資産税_formula» f2 g2 p2 y := by
  simp only [«固定資産税_formula», hf, hg, hp]

/-- Witness for C6: an attribute history that differs from a constant
one everywhere except at the first month of 2020 yields the same tax. -/
theorem property_tax_first_month_only_witness :
    «固定資産税_formula» (fun m => if m.month = 1 then 3 else 7)
      (fun m => if m.month = 1 then HousingOccupancyStatus.owner
        else HousingOccupancyStatus.homeless)
      (fun _ => ⟨1, 2⟩) ⟨2020⟩ =
    «固定資産税_formula» (fun _ => 3) (fun _ => HousingOccupancyStatus.owner)
      (fun _ => ⟨1, 2⟩) ⟨2020⟩ :=
  property_tax_first_month_only _ _ _ _ _ _ ⟨2020⟩ (by norm_num [YearPeriod.first_month])
    (by norm_num [YearPeriod.first_month]) rfl

/-- C7: with rate 0.01 and minimal_amount 200, floor area 10000 with
occupancy owner yields 200 (candidate 100 raised to the floor), and
floor area 50000 with occupancy 借家 yields 500 (candidate above the
floor). -/
theorem property_tax_examples :
    «固定資産税_formula» (fun _ => 10000) (fun _ => HousingOccupancyStatus.owner)
      (fun _ => ⟨1/100, 200⟩) ⟨2020⟩ = 200 ∧
    «固定資産税_formula» (fun _ => 50000) (fun _ => HousingOccupancyStatus.«借家»)
      (fun _ => ⟨1/100, 200⟩) ⟨2020⟩ = 500 := by
  constructor <;> norm_num [«固定資産税_formula», applicability]

/-- C8: each of the three rules is a deterministic pure function of its
declared inputs and parameters: two evaluations whose entity state,
period and parameter values coincide produce identical results. -/
theorem rules_deterministic :
    (∀ («所得1» «所得2» r1 r2 : MonthPeriod → ℚ) (m : MonthPeriod),
      «所得1» m = «所得2» m → r1 m = r2 m →
      «所得税_formula» «所得1» r1 m = «所得税_formula» «所得2» r2 m) ∧
    (∀ («所得1» «所得2» : MonthPeriod → ℚ)
      (s1 s2 : MonthPeriod → List Bracket) (m : MonthPeriod),
      «所得1» m = «所得2» m → s1 m = s2 m →
      «社会保険料_formula» «所得1» s1 m = «社会保険料_formula» «所得2» s2 m) ∧
    (∀ (f1 f2 : MonthPeriod → ℚ) (g1 g2 : MonthPeriod → HousingOccupancyStatus)
      (p1 p2 : YearPeriod → «固定資産税Params») (y : YearPeriod),
      (∀ m, f1 m = f2 m) → (∀ m, g1 m = g2 m) → (∀ q, p1 q = p2 q) →
      «固定資産税_formula» f1 g1 p1 y = «固定資産税_formula» f2 g2 p2 y) := by
  refine ⟨?_, ?_, ?_⟩
  · intro i1 i2 r1 r2 m h1 h2
    simp only [«所得税_formula», h1, h2]
  · intro i1 i2 s1 s2 m h1 h2
    simp only [«社会保険料_formula», h1, h2]
  · intro f1 f2 g1 g2 p1 p2 y hf hg hp
    simp only [«固定資産税_formula», hf, hg, hp]

/-- Witness for C8: each rule evaluated twice on equal concrete inputs
gives equal results. -/
theorem rules_deterministic_witness :
    «所得税_formula» (fun _ => 100) (fun _ => 2) ⟨2020, 3⟩ =
      «所得税_formula» (fun _ => 100) (fun _ => 2) ⟨2020, 3⟩ ∧
    «社会保険料_formula» (fun _ => 500) (fun _ => [⟨0, 1/10⟩]) ⟨2020, 3⟩ =
      «社会保険料_formula» (fun _ => 500) (fun _ => [⟨0, 1/10⟩]) ⟨2020, 3⟩ ∧
    «固定資産税_formula» (fun _ => 10000) (fun _ => HousingOccupancyStatus.owner)
        (fun _ => ⟨1/100, 200⟩) ⟨2020⟩ =
      «固定資産税_formula» (fun _ => 10000) (fun _ => HousingOccupancyStatus.owner)
        (fun _ => ⟨1/100, 200⟩) ⟨2020⟩ :=
  ⟨rules_deterministic.1 _ _ _ _ ⟨2020, 3⟩ rfl rfl,
    rules_deterministic.2.1 _ _ _ _ ⟨2020, 3⟩ rfl rfl,
    rules_deterministic.2.2 _ _ _ _ _ _ ⟨2020⟩
      (fun _ => rfl) (fun _ => rfl) (fun _ => rfl)⟩

/-- C9 counterexample: with both occupancy checks true and a tax amount
of 200, the factor `owner + 借家` of taxes.py line 78 — numpy logical OR
on booleans — yields 1 * 200 = 200, not the claimed 2 * 200: the amount
is not double-counted. -/
theorem property_tax_double_count_cex :
    ¬ (applicability true true * 200 = 2 * (200 : ℚ)) := by
  norm_num [applicability]

/-- C9 (amended): the tax equals applicability(owner check, 借家 check)
* max(area * rate, minimal), where applicability combines the two checks
with numpy's `+` on boolean arrays, which is logical OR: an occupancy
value that satisfied both checks would pay 1 * max(area * rate,
minimal), the same as a single match, with no double counting. -/
theorem property_tax_or_applicability :
    (∀ (f : MonthPeriod → ℚ) (g : MonthPeriod → HousingOccupancyStatus)
      (p : YearPeriod → «固定資産税Params») (y : YearPeriod),
      «固定資産税_formula» f g p y =
        applicability (decide (g y.first_month = HousingOccupancyStatus.owner))
          (decide (g y.first_month = HousingOccupancyStatus.«借家»)) *
          max (f y.first_month * (p y).rate) (p y).«minimal_金額») ∧
    (∀ t : ℚ, applicability true true * t = 1 * t) := by
  constructor
  · intro f g p y
    rfl
  · intro t
    norm_num [applicability]

/-- C10: with a qualifying occupancy status (owner or 借家) and a
non-negative rate, the 固定資産税 is monotonically non-decreasing in the
floor area. -/
theorem property_tax_monotone_area (f1 f2 : MonthPeriod → ℚ)
    (g : MonthPeriod → HousingOccupancyStatus)
    (p : YearPeriod → «固定資産税Params») (y : YearPeriod)
    (hocc : g y.first_month = HousingOccupancyStatus.owner ∨
      g y.first_month = HousingOccupancyStatus.«借家»)
    (hr : 0 ≤ (p y).rate)
    (ha : f1 y.first_month ≤ f2 y.first_month) :
    «固定資産税_formula» f1 g p y ≤ «固定資産税_formula» f2 g p y := by
  have hmax : max (f1 y.first_month * (p y).rate) (p y).«minimal_金額» ≤
      max (f2 y.first_month * (p y).rate) (p y).«minimal_金額» :=
    max_le_max (mul_le_mul_of_nonneg_right ha hr) le_rfl
  rcases hocc with h | h <;>
    simpa [«固定資産税_formula», applicability, h] using hmax

/-- Witness for C10: an owner household with a larger floor area pays at
least as much. -/
theorem property_tax_monotone_area_witness :
    «固定資産税_formula» (fun _ => 10000) (fun _ => HousingOccupancyStatus.owner)
      (fun _ => ⟨1/100, 200⟩) ⟨2020⟩ ≤
    «固定資産税_formula» (fun _ => 50000) (fun _ => HousingOccupancyStatus.owner)
      (fun _ => ⟨1/100, 200⟩) ⟨2020⟩ :=
  property_tax_monotone_area _ _ _ _ ⟨2020⟩ (Or.inl rfl) (by norm_num) (by norm_num)

end OpenFiscaYuisekin
